import Mathlib

/-!
Verification of the catalog-resolution pipeline of the ClubScout lookup
service: code normalization (upcToCore11), row parsing (fetchRows), the
TTL cache (getCachedRows), row matching and response shaping (GET), and
the price derivation of the lookup page (tier rounding and the apparel
bracket table).  All numbers are modelled exactly: monetary amounts as
rationals, clock readings (milliseconds) and TTL seconds as integers.
JavaScript string primitives are modelled on Lean strings as functions on
their character lists; trimming and lower-casing agree with the source on
the inputs the pipeline handles.
-/

/-- Models digitsOnly from src/app/api/search/route.ts: replace every
non-digit character of the input by nothing, keeping the digits. -/
def digitsOnly (input : String) : String :=
  String.mk (input.data.filter Char.isDigit)

/-- Models the regex replace of a leading run of zeros by the empty string,
as used in upcToCore11 and in the upcNumber field of fetchRows. -/
def stripLeadingZeros (s : String) : String :=
  String.mk (s.data.dropWhile (fun c => c == '0'))

/-- Models the trim method of JavaScript strings: remove whitespace from
both ends. -/
def jsTrim (s : String) : String :=
  String.mk (((s.data.dropWhile Char.isWhitespace).reverse.dropWhile
    Char.isWhitespace).reverse)

/-- Models the toLowerCase method of JavaScript strings on the ASCII range. -/
def jsToLower (s : String) : String :=
  String.mk (s.data.map Char.toLower)

/-- Models the idiom (x || default) of the route handler on an optional
string: a missing or empty value is replaced by the default. -/
def jsOr (s : Option String) (d : String) : String :=
  match s with
  | none => d
  | some v => if v = "" then d else v

/-- The intermediate digit string of upcToCore11: all digits of the input,
with leading zeros removed when exactly 13 digits were present. -/
def reducedDigits (input : String) : String :=
  let d := digitsOnly input
  if d.length = 13 then stripLeadingZeros d else d

/-- Models upcToCore11 from src/app/api/search/route.ts: keep the digits,
on 13 digits first strip leading zeros, then map 12 digits to their first
11 (the slice from 0 to 11), pass 11 digits through, and reject every
other length with null. -/
def upcToCore11 (input : String) : Option String :=
  let d := reducedDigits input
  if d.length = 12 then some (String.mk (d.data.take 11))
  else if d.length = 11 then some d
  else none

/-- Models the Row type of src/app/api/search/route.ts. -/
structure Row where
  importDate : String
  description : String
  itemNumber : String
  upcNumber : String
  categoryDescription : String
  retailPerUnit : String
deriving DecidableEq

/-- The resolved column positions of fetchRows; minus one stands for a
failed header lookup, as in the JavaScript findIndex idiom. -/
structure Cols where
  iImportDate : Int
  iDescription : Int
  iItemNumber : Int
  iUpc : Int
  iCatDesc : Int
  iRetailPerUnit : Int
deriving DecidableEq

/-- Models the idx helper of fetchRows: the position of the first header
cell equal to the name up to case, or minus one. -/
def headerIdx (header : List String) (name : String) : Int :=
  match header.findIdx? (fun h => jsToLower h == jsToLower name) with
  | some i => (i : Int)
  | none => -1

/-- Models the idxAny helper of fetchRows: the first nonnegative index
among the candidate names, or minus one. -/
def headerIdxAny (header : List String) (names : List String) : Int :=
  ((names.map (headerIdx header)).find? (fun i => decide (0 <= i))).getD (-1)

/-- Models the getAt helper of fetchRows: the trimmed cell at a resolved
position, or the empty string for an unresolved position or a short row. -/
def getAt (row : List String) (i : Int) : String :=
  if 0 <= i then jsTrim (row.getD i.toNat "") else ""

/-- The candidate header names for the retail column, in priority order,
as listed in fetchRows. -/
def retailHeaderNames : List String :=
  ["Retail per Unit",
   "Retail per unit",
   "Retail per Unit (USD$)",
   "Retail per unit (USD$)",
   "Retail per Unit (USD)",
   "Retail per unit (USD)"]

/-- Models the column resolution of fetchRows on the trimmed header row,
with the hard-coded fallback to column K (index 10) for the retail
column. -/
def resolveCols (header : List String) : Cols :=
  let iRetail := headerIdxAny header retailHeaderNames
  { iImportDate := headerIdx header "Import Date"
    iDescription := headerIdx header "Description"
    iItemNumber := headerIdx header "ItemNumber"
    iUpc := headerIdx header "UPC Number"
    iCatDesc := headerIdx header "Category description"
    iRetailPerUnit := if iRetail < 0 then 10 else iRetail }

/-- Models one turn of the row loop of fetchRows: a data row is skipped
when both extracted identifiers are empty, and otherwise yields a Row
whose upcNumber keeps only digits with leading zeros stripped. -/
def parseRow (c : Cols) (row : List String) : Option Row :=
  let itemNumber := getAt row c.iItemNumber
  let upcNumber := getAt row c.iUpc
  if itemNumber == "" && upcNumber == "" then none
  else some
    { importDate := getAt row c.iImportDate
      description := getAt row c.iDescription
      itemNumber := itemNumber
      upcNumber := stripLeadingZeros (digitsOnly upcNumber)
      categoryDescription := getAt row c.iCatDesc
      retailPerUnit := getAt row c.iRetailPerUnit }

/-- Models the parsing part of fetchRows from src/app/api/search/route.ts:
fewer than two raw rows yield no rows; otherwise the header row is trimmed,
columns are resolved once, and every data row is parsed independently. -/
def fetchRowsParse (values : List (List String)) : List Row :=
  if values.length < 2 then []
  else
    let header := (values.headD []).map jsTrim
    (values.drop 1).filterMap (parseRow (resolveCols header))

/-- Models the cache cell of src/app/api/search/route.ts: the rows of the
last successful fetch together with its capture time in milliseconds (the
source field named at). -/
structure Snapshot where
  capturedAt : Int
  rows : List Row
deriving DecidableEq

/-- The outcome of one rows acquisition: the rows served, the cache cell
afterwards, and whether the adapter was fetched on this call. -/
structure FetchOutcome where
  rows : List Row
  cache : Option Snapshot
  fetched : Bool
deriving DecidableEq

/-- The TTL in seconds as read by getCachedRows from the configuration,
modelled for a variable that is unset or holds an integer literal:
Number of the setting, with 30 as the default. -/
def ttlSecondsOf (env : Option Int) : Int :=
  env.getD 30

/-- Models getCachedRows from src/app/api/search/route.ts: serve the cache
cell when it exists and is younger than the TTL, and otherwise fetch,
overwrite the cache cell with the fresh rows stamped now, and serve them.
The freshRows argument stands for the parsed result the adapter fetch
would deliver on this call. -/
def getCachedRows (env : Option Int) (now : Int) (freshRows : List Row)
    (cache : Option Snapshot) : FetchOutcome :=
  match cache with
  | some c =>
    if now - c.capturedAt < ttlSecondsOf env * 1000 then
      ⟨c.rows, some c, false⟩
    else ⟨freshRows, some ⟨now, freshRows⟩, true⟩
  | none => ⟨freshRows, some ⟨now, freshRows⟩, true⟩

/-- Models the rows acquisition of the GET handler: with refresh forced it
calls fetchRows directly, leaving the cache cell untouched, and otherwise
it goes through getCachedRows. -/
def lookupRows (refresh : Bool) (env : Option Int) (now : Int)
    (freshRows : List Row) (cache : Option Snapshot) : FetchOutcome :=
  if refresh then ⟨freshRows, cache, true⟩
  else getCachedRows env now freshRows cache

/-- The body of a handler response: a failure carries ok false and an
error message, noMatch carries ok true and found false with the optional
searched core and the debug flag, and found carries ok true and found
true with the matched row from which the result fields are derived. -/
inductive Body where
  | failure (error : String)
  | noMatch (searched : Option String) (debug : Bool)
  | found (searched : Option String) (row : Row)
deriving DecidableEq

/-- A handler response: HTTP status plus body. -/
structure Resp where
  status : Nat
  body : Body
deriving DecidableEq

/-- Models the GET handler of src/app/api/search/route.ts as a function of
the query parameters, the configuration, the clock, the rows a fetch
would parse, and the cache cell; it returns the response and the cache
cell afterwards. -/
def handleGet (typeParam qParam refreshParam debugParam : Option String)
    (env : Option Int) (now : Int) (freshRows : List Row)
    (cache : Option Snapshot) : Resp × Option Snapshot :=
  let ty := jsToLower (jsOr typeParam "upc")
  let q := jsTrim (jsOr qParam "")
  let refresh := refreshParam == some "1"
  let debug := debugParam == some "1"
  if q = "" then (⟨400, Body.failure "Missing query"⟩, cache)
  else
    let out := lookupRows refresh env now freshRows cache
    if ty = "item" then
      let qItem := digitsOnly q
      match out.rows.find? (fun r => digitsOnly r.itemNumber == qItem) with
      | none => (⟨200, Body.noMatch none false⟩, out.cache)
      | some m => (⟨200, Body.found none m⟩, out.cache)
    else
      match upcToCore11 q with
      | none =>
        (⟨400, Body.failure
          "UPC must be 12 digits (UPC-A) or 11 digits (core without check digit)."⟩,
         out.cache)
      | some core =>
        match out.rows.find? (fun r => r.upcNumber == core) with
        | none => (⟨200, Body.noMatch (some core) debug⟩, out.cache)
        | some m => (⟨200, Body.found (some core) m⟩, out.cache)

/-- The apparel category labels of the lookup page (src/unnamed/part_001). -/
def APPAREL_CATEGORIES : List String :=
  ["MENS APPAREL",
   "BASIC APPAREL",
   "ACCESSORIES",
   "LADIES APPAREL",
   "CHILDRENS APPAREL"]

/-- Models calcApparelPrice of the lookup page: the bracket price from the
step table keyed by retail thresholds. -/
def calcApparelPrice (retail : ℚ) : ℤ :=
  if retail <= 1599/100 then 6
  else if retail <= 2299/100 then 8
  else if retail <= 2799/100 then 10
  else if retail <= 3099/100 then 12
  else if retail <= 3699/100 then 15
  else if retail <= 4499/100 then 20
  else 25

/-- Models the isApparel test of the lookup page: the category is present
and its trimmed form is one of the apparel labels. -/
def isApparel (category : String) : Bool :=
  !(category == "") && APPAREL_CATEGORIES.contains (jsTrim category)

/-- Models the apparelPrice derivation of the lookup page: the bracket
price for apparel categories, and null otherwise. -/
def apparelPriceOf (category : String) (retail : ℚ) : Option ℤ :=
  if isApparel category then some (calcApparelPrice retail) else none

/-- Models the tier one derivation of the lookup page: Math.round of
seventy percent of retail, where Math.round x is the floor of x plus one
half. -/
def tier1Rounded (retail : ℚ) : ℤ :=
  ⌊retail * (7/10) + 1/2⌋

/-- Models the tier two derivation of the lookup page: Math.ceil of fifty
percent of retail. -/
def tier2Rounded (retail : ℚ) : ℤ :=
  ⌈retail * (1/2)⌉

/-- The head of a list after dropping a leading run of zeros is never the
zero character. -/
lemma head_dropWhile_zero_ne (l : List Char) :
    (l.dropWhile (fun c => c == '0')).head? ≠ some '0' := by
  induction l with
  | nil => simp
  | cons a t ih =>
    by_cases h : (a == '0') = true
    · simpa [List.dropWhile_cons, h] using ih
    · simp only [List.dropWhile_cons, h, if_neg]
      simp only [Bool.not_eq_true, beq_eq_false_iff_ne, ne_eq] at h
      simp [h]

/-- Dropping a prefix preserves a property that all elements satisfy. -/
lemma all_of_dropWhile (p q : Char → Bool) (l : List Char)
    (h : l.all q = true) : (l.dropWhile p).all q = true := by
  induction l with
  | nil => simp
  | cons a t ih =>
    simp only [List.all_cons, Bool.and_eq_true] at h
    by_cases hp : (p a) = true
    · simpa [List.dropWhile_cons, hp] using ih h.2
    · simp [List.dropWhile_cons, hp, List.all_cons, h.1, h.2]

/-- Claim C2: the tier two derivation of the lookup page is the exact
ceiling of half the retail amount, a whole currency unit that never falls
below half the retail and exceeds it by less than one, hence rounds up and
never down, also at exact halves; at retail 10.01 it yields 6. -/
theorem C2_tier2_is_ceiling (retail : ℚ) :
    retail * (1/2) <= (tier2Rounded retail : ℚ) ∧
    ((tier2Rounded retail : ℚ)) - 1 < retail * (1/2) ∧
    tier2Rounded (1001/100) = 6 := by
  refine ⟨?_, ?_, ?_⟩
  · simpa [tier2Rounded] using Int.le_ceil (retail * (1/2))
  · have h := Int.ceil_lt_add_one (retail * (1/2))
    simp only [tier2Rounded]
    linarith
  · norm_num [tier2Rounded, Int.ceil_eq_iff]

/-- Claim C3: upcToCore11 works on the digits of its input; exactly 12
digits yield the first 11 of them, exactly 11 digits pass through
unchanged, and any other digit count (after the reduction applied at 13
digits) yields none. -/
theorem C3_upcToCore11_cases (s : String) :
    ((digitsOnly s).length = 12 →
      upcToCore11 s = some (String.mk ((digitsOnly s).data.take 11))) ∧
    ((digitsOnly s).length = 11 → upcToCore11 s = some (digitsOnly s)) ∧
    ((reducedDigits s).length ≠ 12 → (reducedDigits s).length ≠ 11 →
      upcToCore11 s = none) := by
  refine ⟨?_, ?_, ?_⟩
  · intro h12
    have hr : reducedDigits s = digitsOnly s := by
      simp [reducedDigits, h12]
    simp [upcToCore11, hr, h12]
  · intro h11
    have hr : reducedDigits s = digitsOnly s := by
      simp [reducedDigits, h11]
    simp [upcToCore11, hr, h11]
  · intro h1 h2
    simp [upcToCore11, h1, h2]

/-- Witness for claim C3 at the 12-digit scan 193968502553. -/
theorem C3_witness :
    upcToCore11 "193968502553" =
      some (String.mk ((digitsOnly "193968502553").data.take 11)) :=
  (C3_upcToCore11_cases "193968502553").1 (by decide)

/-- Claim C4 counterexample: the 13-digit string 0012345678905 starts with
two zeros, yet upcToCore11 keeps its full 11-digit tail 12345678905, while
the equivalent 12-digit UPC-A 012345678905 (the first leading zero
removed) reduces to the distinct core 01234567890. -/
theorem C4_counterexample :
    upcToCore11 "0012345678905" = some "12345678905" ∧
    upcToCore11 "012345678905" = some "01234567890" ∧
    upcToCore11 "0012345678905" ≠ upcToCore11 "012345678905" := by
  decide

/-- Claim C4 (amended): for every digit string of length 13 whose first
digit is zero and whose second digit is not zero, upcToCore11 returns the
same 11-digit core as the equivalent 12-digit UPC-A, the string with its
leading zero removed: the first 11 of the remaining 12 digits. -/
theorem C4_amended_single_zero (c : Char) (rest : List Char)
    (hc : c.isDigit = true) (hc0 : c ≠ '0')
    (hrest : rest.all Char.isDigit = true) (hlen : rest.length = 11) :
    upcToCore11 (String.mk ('0' :: c :: rest)) =
      upcToCore11 (String.mk (c :: rest)) ∧
    upcToCore11 (String.mk ('0' :: c :: rest)) =
      some (String.mk ((c :: rest).take 11)) := by
  have hall : ∀ x ∈ ('0' :: c :: rest), Char.isDigit x = true := by
    intro x hx
    rcases List.mem_cons.mp hx with rfl | hx
    · decide
    rcases List.mem_cons.mp hx with rfl | hx
    · exact hc
    · exact (List.all_eq_true.mp hrest) _ hx
  have hd13 : digitsOnly (String.mk ('0' :: c :: rest)) =
      String.mk ('0' :: c :: rest) := by
    simp only [digitsOnly]
    rw [List.filter_eq_self.mpr hall]
  have hd12 : digitsOnly (String.mk (c :: rest)) = String.mk (c :: rest) := by
    simp only [digitsOnly]
    rw [List.filter_eq_self.mpr (fun x hx => hall x (List.mem_cons_of_mem _ hx))]
  have hc0b : (c == '0') = false := by
    simp [hc0]
  have hstrip : stripLeadingZeros (String.mk ('0' :: c :: rest)) =
      String.mk (c :: rest) := by
    simp [stripLeadingZeros, List.dropWhile_cons, hc0b]
  have hr13 : reducedDigits (String.mk ('0' :: c :: rest)) =
      String.mk (c :: rest) := by
    simp only [reducedDigits, hd13]
    rw [if_pos (by simp [String.length, hlen]), hstrip]
  have hr12 : reducedDigits (String.mk (c :: rest)) = String.mk (c :: rest) := by
    simp only [reducedDigits, hd12]
    rw [if_neg (by simp [String.length, hlen])]
  have hlen12 : (String.mk (c :: rest)).length = 12 := by
    simp [String.length, hlen]
  constructor
  · simp [upcToCore11, hr13, hr12]
  · simp [upcToCore11, hr13, hlen12]

/-- Witness for the amended claim C4 at the string 0123456789012. -/
theorem C4_witness :
    upcToCore11 (String.mk ('0' :: '1' ::
        ['2', '3', '4', '5', '6', '7', '8', '9', '0', '1', '2'])) =
      upcToCore11 (String.mk ('1' ::
        ['2', '3', '4', '5', '6', '7', '8', '9', '0', '1', '2'])) :=
  (C4_amended_single_zero '1'
    ['2', '3', '4', '5', '6', '7', '8', '9', '0', '1', '2']
    (by decide) (by decide) (by decide) (by decide)).1

/-- Claim C6: the lookup page attaches an apparel bracket price exactly
when the trimmed category is one of the five apparel labels, in which case
the bracket comes from the step table of calcApparelPrice; retail 15.99
in category MENS APPAREL yields 6 and retail 16.00 yields 8. -/
theorem C6_apparel_bracket (category : String) (retail : ℚ) :
    (APPAREL_CATEGORIES.contains (jsTrim category) = true →
      apparelPriceOf category retail = some (calcApparelPrice retail)) ∧
    (APPAREL_CATEGORIES.contains (jsTrim category) = false →
      apparelPriceOf category retail = none) ∧
    apparelPriceOf "MENS APPAREL" (1599/100) = some 6 ∧
    apparelPriceOf "MENS APPAREL" 16 = some 8 := by
  refine ⟨?_, ?_, ?_, ?_⟩
  · intro hc
    have hne : (category == "") = false := by
      rcases eq_or_ne category "" with rfl | hne
      · exact absurd hc (by decide)
      · simp [hne]
    have happ : isApparel category = true := by
      simp only [isApparel, hne, Bool.not_false, Bool.true_and, hc]
    simp [apparelPriceOf, happ]
  · intro hc
    have happ : isApparel category = false := by
      simp only [isApparel, hc, Bool.and_false]
    simp [apparelPriceOf, happ]
  · rw [apparelPriceOf, show isApparel "MENS APPAREL" = true from by decide]
    norm_num [calcApparelPrice]
  · rw [apparelPriceOf, show isApparel "MENS APPAREL" = true from by decide]
    norm_num [calcApparelPrice]

/-- Witness for claim C6: the category ACCESSORIES receives the bracket
price of the step table. -/
theorem C6_witness :
    apparelPriceOf "ACCESSORIES" 20 = some (calcApparelPrice 20) :=
  (C6_apparel_bracket "ACCESSORIES" 20).1 (by decide)

/-- Claim C1 counterexample: with a cached snapshot of capture time 0
holding one row, a forced-refresh lookup at time 1000 whose fetch parses a
different row does fetch and serve the fresh row, but leaves the snapshot
and its capture timestamp untouched, so a subsequent plain lookup at time
2000 (within the default TTL) is served the old row, not the newly fetched
one, contradicting the claimed replacement. -/
theorem C1_counterexample :
    (lookupRows true none 1000 [⟨"", "", "B", "", "", ""⟩]
        (some ⟨0, [⟨"", "", "A", "", "", ""⟩]⟩)).fetched = true ∧
    (lookupRows true none 1000 [⟨"", "", "B", "", "", ""⟩]
        (some ⟨0, [⟨"", "", "A", "", "", ""⟩]⟩)).rows =
      [⟨"", "", "B", "", "", ""⟩] ∧
    (lookupRows true none 1000 [⟨"", "", "B", "", "", ""⟩]
        (some ⟨0, [⟨"", "", "A", "", "", ""⟩]⟩)).cache =
      some ⟨0, [⟨"", "", "A", "", "", ""⟩]⟩ ∧
    ¬ (lookupRows true none 1000 [⟨"", "", "B", "", "", ""⟩]
        (some ⟨0, [⟨"", "", "A", "", "", ""⟩]⟩)).cache =
      some ⟨1000, [⟨"", "", "B", "", "", ""⟩]⟩ ∧
    (lookupRows false none 2000 [⟨"", "", "B", "", "", ""⟩]
        ((lookupRows true none 1000 [⟨"", "", "B", "", "", ""⟩]
          (some ⟨0, [⟨"", "", "A", "", "", ""⟩]⟩)).cache)).fetched = false ∧
    (lookupRows false none 2000 [⟨"", "", "B", "", "", ""⟩]
        ((lookupRows true none 1000 [⟨"", "", "B", "", "", ""⟩]
          (some ⟨0, [⟨"", "", "A", "", "", ""⟩]⟩)).cache)).rows =
      [⟨"", "", "A", "", "", ""⟩] ∧
    ¬ (lookupRows false none 2000 [⟨"", "", "B", "", "", ""⟩]
        ((lookupRows true none 1000 [⟨"", "", "B", "", "", ""⟩]
          (some ⟨0, [⟨"", "", "A", "", "", ""⟩]⟩)).cache)).rows =
      [⟨"", "", "B", "", "", ""⟩] := by
  decide

/-- Claim C1 (amended): a forced-refresh lookup always triggers an adapter
fetch and serves its freshly parsed rows, but leaves the cached snapshot
and its capture timestamp unchanged; an immediately subsequent plain
lookup within the TTL of the prior snapshot is served that prior
snapshot's rows without another fetch. -/
theorem C1_amended_refresh_bypasses_cache (env : Option Int)
    (now₁ now₂ : Int) (f₁ f₂ : List Row) (snap : Snapshot) :
    (lookupRows true env now₁ f₁ (some snap)).fetched = true ∧
    (lookupRows true env now₁ f₁ (some snap)).rows = f₁ ∧
    (lookupRows true env now₁ f₁ (some snap)).cache = some snap ∧
    (now₂ - snap.capturedAt < ttlSecondsOf env * 1000 →
      (lookupRows false env now₂ f₂ (some snap)).rows = snap.rows ∧
      (lookupRows false env now₂ f₂ (some snap)).fetched = false) := by
  refine ⟨rfl, rfl, rfl, fun h => ?_⟩
  constructor
  · simp [lookupRows, getCachedRows, h]
  · simp [lookupRows, getCachedRows, h]

/-- Witness for the amended claim C1 with an empty snapshot of capture
time 0, a forced refresh at time 1000 and a plain lookup at time 2000. -/
theorem C1_witness :
    (lookupRows false none 2000 [] (some ⟨0, []⟩)).rows = [] ∧
    (lookupRows false none 2000 [] (some ⟨0, []⟩)).fetched = false :=
  (C1_amended_refresh_bypasses_cache none 1000 2000 [] [] ⟨0, []⟩).2.2.2
    (by decide)

/-- Claim C5: starting from an empty cache, a plain lookup fetches and
captures a snapshot at its call time, and a second plain lookup less than
the configured TTL (in seconds, against millisecond clocks) after that
capture time is served the same snapshot's rows without a second fetch;
the TTL defaults to 30 when the setting is absent. -/
theorem C5_single_fetch_within_ttl (env : Option Int) (now₁ now₂ : Int)
    (f₁ f₂ : List Row)
    (h : now₂ - now₁ < ttlSecondsOf env * 1000) :
    (lookupRows false env now₁ f₁ none).fetched = true ∧
    (lookupRows false env now₁ f₁ none).rows = f₁ ∧
    (lookupRows false env now₁ f₁ none).cache = some ⟨now₁, f₁⟩ ∧
    (lookupRows false env now₂ f₂
        ((lookupRows false env now₁ f₁ none).cache)).fetched = false ∧
    (lookupRows false env now₂ f₂
        ((lookupRows false env now₁ f₁ none).cache)).rows = f₁ ∧
    ttlSecondsOf none = 30 := by
  have h1 : lookupRows false env now₁ f₁ none = ⟨f₁, some ⟨now₁, f₁⟩, true⟩ := rfl
  refine ⟨by rw [h1], by rw [h1], by rw [h1], ?_, ?_, rfl⟩
  · rw [h1]
    simp [lookupRows, getCachedRows, h]
  · rw [h1]
    simp [lookupRows, getCachedRows, h]

/-- Witness for claim C5: a first lookup at time 0 and a second at time
1000 with the default TTL share one fetch and one row list. -/
theorem C5_witness :
    (lookupRows false none 0 [⟨"", "", "A", "", "", ""⟩] none).fetched = true ∧
    (lookupRows false none 0 [⟨"", "", "A", "", "", ""⟩] none).rows =
      [⟨"", "", "A", "", "", ""⟩] ∧
    (lookupRows false none 0 [⟨"", "", "A", "", "", ""⟩] none).cache =
      some ⟨0, [⟨"", "", "A", "", "", ""⟩]⟩ ∧
    (lookupRows false none 1000 [⟨"", "", "B", "", "", ""⟩]
        ((lookupRows false none 0 [⟨"", "", "A", "", "", ""⟩] none).cache)).fetched =
      false ∧
    (lookupRows false none 1000 [⟨"", "", "B", "", "", ""⟩]
        ((lookupRows false none 0 [⟨"", "", "A", "", "", ""⟩] none).cache)).rows =
      [⟨"", "", "A", "", "", ""⟩] ∧
    ttlSecondsOf none = 30 :=
  C5_single_fetch_within_ttl none 0 1000 [⟨"", "", "A", "", "", ""⟩]
    [⟨"", "", "B", "", "", ""⟩] (by decide)

/-- Claim C7: parsing maps each data row independently, and a data row
contributes a catalog row exactly when at least one of its extracted
identifiers is non-empty; no other field influences retention. -/
theorem C7_row_retention (values : List (List String)) (c : Cols)
    (row : List String) (h : 2 <= values.length) :
    fetchRowsParse values =
      (values.drop 1).filterMap
        (parseRow (resolveCols ((values.headD []).map jsTrim))) ∧
    ((parseRow c row).isSome = true ↔
      ¬(getAt row c.iItemNumber = "" ∧ getAt row c.iUpc = "")) := by
  constructor
  · rw [fetchRowsParse, if_neg (by omega)]
  · by_cases h1 : getAt row c.iItemNumber = "" <;>
      by_cases h2 : getAt row c.iUpc = "" <;>
        simp [parseRow, h1, h2]

/-- Witness for claim C7 on a two-row sheet whose single data row carries
only an item number. -/
theorem C7_witness :
    fetchRowsParse [["ItemNumber"], ["A1"]] =
      ([["A1"]] : List (List String)).filterMap
        (parseRow (resolveCols ([["ItemNumber"]].headD [] |>.map jsTrim))) ∧
    ((parseRow (⟨-1, -1, -1, -1, -1, -1⟩ : Cols) ["A1"]).isSome = true ↔
      ¬(getAt ["A1"] (-1) = "" ∧ getAt ["A1"] (-1) = "")) :=
  C7_row_retention [["ItemNumber"], ["A1"]] ⟨-1, -1, -1, -1, -1, -1⟩ ["A1"]
    (by decide)

/-- Claim C8: a missing or empty query, or a failed UPC normalization in
UPC mode, yields an ok-false body with an error message under the
client-error status 400, while a well-formed query that matches no row is
answered ok-true found-false under the success status 200, in item mode
and in UPC mode alike. -/
theorem C8_response_shapes (tyP qP rP dP : Option String) (env : Option Int)
    (now : Int) (freshRows : List Row) (cache : Option Snapshot)
    (core : String) :
    (jsTrim (jsOr qP "") = "" →
      (handleGet tyP qP rP dP env now freshRows cache).1 =
        ⟨400, Body.failure "Missing query"⟩) ∧
    (jsTrim (jsOr qP "") ≠ "" → jsToLower (jsOr tyP "upc") ≠ "item" →
      upcToCore11 (jsTrim (jsOr qP "")) = none →
      ((handleGet tyP qP rP dP env now freshRows cache).1.status = 400 ∧
        ∃ msg, (handleGet tyP qP rP dP env now freshRows cache).1.body =
          Body.failure msg)) ∧
    (jsTrim (jsOr qP "") ≠ "" → jsToLower (jsOr tyP "upc") = "item" →
      (lookupRows (rP == some "1") env now freshRows cache).rows.find?
          (fun r => digitsOnly r.itemNumber == digitsOnly (jsTrim (jsOr qP ""))) =
        none →
      (handleGet tyP qP rP dP env now freshRows cache).1 =
        ⟨200, Body.noMatch none false⟩) ∧
    (jsTrim (jsOr qP "") ≠ "" → jsToLower (jsOr tyP "upc") ≠ "item" →
      upcToCore11 (jsTrim (jsOr qP "")) = some core →
      (lookupRows (rP == some "1") env now freshRows cache).rows.find?
          (fun r => r.upcNumber == core) = none →
      (handleGet tyP qP rP dP env now freshRows cache).1 =
        ⟨200, Body.noMatch (some core) (dP == some "1")⟩) := by
  refine ⟨?_, ?_, ?_, ?_⟩
  · intro hq
    simp [handleGet, hq]
  · intro hq hty hcore
    simp [handleGet, hq, hty, hcore]
  · intro hq hty hfind
    simp [handleGet, hq, hty, hfind]
  · intro hq hty hcore hfind
    simp [handleGet, hq, hty, hcore, hfind]

/-- Witness for claim C8: the missing-query request is answered with the
client-error shape. -/
theorem C8_witness :
    (handleGet (some "upc") none none none none 0 [] none).1 =
      ⟨400, Body.failure "Missing query"⟩ :=
  (C8_response_shapes (some "upc") none none none none 0 [] none "").1
    (by decide)

/-- A row produced by parseRow stores as upcNumber the digits of the
extracted cell with leading zeros stripped. -/
lemma parseRow_upcNumber (c : Cols) (row : List String) (r : Row)
    (h : parseRow c row = some r) :
    r.upcNumber = stripLeadingZeros (digitsOnly (getAt row c.iUpc)) := by
  simp only [parseRow] at h
  by_cases hcond :
      (getAt row c.iItemNumber == "" && getAt row c.iUpc == "") = true
  · rw [if_pos hcond] at h
    exact absurd h (by simp)
  · rw [if_neg hcond] at h
    have he := Option.some.inj h
    rw [← he]

/-- Every row of a parsed catalog has a digits-only upcNumber that does
not begin with the zero character. -/
lemma fetchRowsParse_upc_invariant (values : List (List String)) (r : Row)
    (hr : r ∈ fetchRowsParse values) :
    r.upcNumber.data.all Char.isDigit = true ∧
    r.upcNumber.data.head? ≠ some '0' := by
  rw [fetchRowsParse] at hr
  by_cases hlen : values.length < 2
  · rw [if_pos hlen] at hr
    exact absurd hr (by simp)
  · rw [if_neg hlen] at hr
    obtain ⟨row, _, hparse⟩ := List.mem_filterMap.mp hr
    rw [parseRow_upcNumber _ _ _ hparse]
    constructor
    · apply all_of_dropWhile
      simp [List.all_eq_true, List.mem_filter, stripLeadingZeros, digitsOnly]
    · exact head_dropWhile_zero_ne _

/-- The rows served by one acquisition are either the fresh fetch result
or the rows of the cached snapshot. -/
lemma lookupRows_rows_cases (refresh : Bool) (env : Option Int) (now : Int)
    (freshRows : List Row) (cache : Option Snapshot) :
    (lookupRows refresh env now freshRows cache).rows = freshRows ∨
    ∃ snap, cache = some snap ∧
      (lookupRows refresh env now freshRows cache).rows = snap.rows := by
  cases refresh
  · cases cache with
    | none => exact Or.inl rfl
    | some c =>
      by_cases h : now - c.capturedAt < ttlSecondsOf env * 1000
      · exact Or.inr ⟨c, rfl, by simp [lookupRows, getCachedRows, h]⟩
      · exact Or.inl (by simp [lookupRows, getCachedRows, h])
  · exact Or.inl rfl

/-- A UPC core beginning with the zero character matches no row whose
upcNumber avoids a leading zero. -/
lemma find_none_of_leading_zero (rows : List Row) (core : String)
    (hrows : ∀ x ∈ rows, x.upcNumber.data.head? ≠ some '0')
    (hcore : core.data.head? = some '0') :
    rows.find? (fun x => x.upcNumber == core) = none := by
  apply List.find?_eq_none.mpr
  intro x hx hbe
  have he : x.upcNumber = core := by simpa using hbe
  exact hrows x hx (by rw [he, hcore])

/-- Claim C9: every parsed catalog row has a digits-only upcNumber that
never begins with zero, a normalized core beginning with zero therefore
matches no parsed row, and a UPC-mode lookup for such a core against a
parsed catalog (fresh or cached) is answered found false. -/
theorem C9_leading_zero_core_unmatchable (values vs : List (List String))
    (r : Row) (rows : List Row) (core : String)
    (tyP qP rP dP : Option String) (env : Option Int) (now t : Int)
    (cache : Option Snapshot) :
    (r ∈ fetchRowsParse values →
      r.upcNumber.data.all Char.isDigit = true ∧
      r.upcNumber.data.head? ≠ some '0') ∧
    ((∀ x ∈ rows, x.upcNumber.data.head? ≠ some '0') →
      core.data.head? = some '0' →
      rows.find? (fun x => x.upcNumber == core) = none) ∧
    (jsToLower (jsOr tyP "upc") ≠ "item" →
      upcToCore11 (jsTrim (jsOr qP "")) = some core →
      core.data.head? = some '0' →
      (cache = none ∨ cache = some ⟨t, fetchRowsParse vs⟩) →
      (handleGet tyP qP rP dP env now (fetchRowsParse values) cache).1 =
        ⟨200, Body.noMatch (some core) (dP == some "1")⟩) := by
  refine ⟨fetchRowsParse_upc_invariant values r, ?_, ?_⟩
  · intro hrows hcore
    exact find_none_of_leading_zero rows core hrows hcore
  · intro hty hqcore hcore hcache
    have hq : jsTrim (jsOr qP "") ≠ "" := by
      intro h
      rw [h, show upcToCore11 "" = none from by decide] at hqcore
      exact Option.noConfusion hqcore
    have hinv : ∀ x ∈ (lookupRows (rP == some "1") env now
        (fetchRowsParse values) cache).rows,
        x.upcNumber.data.head? ≠ some '0' := by
      rcases lookupRows_rows_cases (rP == some "1") env now
          (fetchRowsParse values) cache with h | ⟨snap, hc, h⟩
      · rw [h]
        intro x hx
        exact (fetchRowsParse_upc_invariant values x hx).2
      · rcases hcache with hnone | hsome
        · rw [hnone] at hc
          exact absurd hc (by simp)
        · rw [hsome] at hc
          have hs := Option.some.inj hc
          rw [h, ← hs]
          intro x hx
          exact (fetchRowsParse_upc_invariant vs x hx).2
    have hfind : (lookupRows (rP == some "1") env now
        (fetchRowsParse values) cache).rows.find?
        (fun x => x.upcNumber == core) = none :=
      find_none_of_leading_zero _ core hinv hcore
    simp [handleGet, hq, hty, hqcore, hfind]

/-- Witness for claim C9: looking up the core 01234567890 in a freshly
parsed one-row catalog reports found false. -/
theorem C9_witness :
    (handleGet (some "upc") (some "01234567890") none none none 0
      (fetchRowsParse [["UPC Number"], ["00123"]]) none).1 =
      ⟨200, Body.noMatch (some "01234567890") false⟩ :=
  (C9_leading_zero_core_unmatchable [["UPC Number"], ["00123"]] [] ⟨"", "", "", "", "", ""⟩
    [] "01234567890" (some "upc") (some "01234567890") none none none 0 0
    none).2.2 (by decide) (by decide) (by decide) (Or.inl rfl)

/-- Claim C10: in item mode the matcher compares digit reductions, so a
query without any digit character reduces to the empty key; when some
retained row also has a digit-free item number (for instance one retained
only for its UPC), the handler answers found true with the first such row
instead of rejecting the query or reporting found false. -/
theorem C10_item_mode_digitless_query (tyP qP rP dP : Option String)
    (env : Option Int) (now : Int) (freshRows : List Row)
    (cache : Option Snapshot) (m : Row)
    (hty : jsToLower (jsOr tyP "upc") = "item")
    (hq : jsTrim (jsOr qP "") ≠ "")
    (hnd : (jsTrim (jsOr qP "")).data.all (fun ch => !ch.isDigit) = true)
    (hfind : (lookupRows (rP == some "1") env now freshRows cache).rows.find?
        (fun r => digitsOnly r.itemNumber == "") = some m) :
    digitsOnly (jsTrim (jsOr qP "")) = "" ∧
    digitsOnly m.itemNumber = "" ∧
    (handleGet tyP qP rP dP env now freshRows cache).1 =
      ⟨200, Body.found none m⟩ := by
  have hkey : digitsOnly (jsTrim (jsOr qP "")) = "" := by
    simp only [digitsOnly, List.all_eq_true, Bool.not_eq_true'] at hnd ⊢
    rw [List.filter_eq_nil_iff.mpr (fun a ha => by simp [hnd a ha])]
  have hmkey : digitsOnly m.itemNumber = "" := by
    have hp := List.find?_some hfind
    simpa using hp
  refine ⟨hkey, hmkey, ?_⟩
  simp [handleGet, hq, hty, hkey, hfind]

/-- Witness for claim C10: the digit-free query ABC in item mode returns
the row that was retained only for its UPC and has an empty item number. -/
theorem C10_witness :
    digitsOnly (jsTrim (jsOr (some "ABC") "")) = "" ∧
    digitsOnly (Row.itemNumber ⟨"", "", "", "99", "", ""⟩) = "" ∧
    (handleGet (some "item") (some "ABC") none none none 0
      [⟨"", "", "", "99", "", ""⟩] none).1 =
      ⟨200, Body.found none ⟨"", "", "", "99", "", ""⟩⟩ :=
  C10_item_mode_digitless_query (some "item") (some "ABC") none none none 0
    [⟨"", "", "", "99", "", ""⟩] none ⟨"", "", "", "99", "", ""⟩
    (by decide) (by decide) (by decide) (by decide)
